import Mathlib

/-!
Shallow embedding of the mdlayher/aoe package (ATA over Ethernet server).

Bytes are modelled as `List Nat`, each entry one octet.  The `uint8`/`uint16`
arithmetic is modelled with explicit `% 256` / `% 65536` exactly where the Go
code performs machine arithmetic; fields of Go structs whose types already
bound their values (uint8, uint16) are plain `Nat` and theorems carry the
bounds as hypotheses where they matter.

Go functions that can panic at runtime (out-of-range slice expressions) are
modelled with the `MResult.panicked` constructor; ordinary error returns use
`MResult.err` / `Except.error`.
-/

set_option maxRecDepth 100000

namespace AoE

/-- Error values of the aoe package (Error codes and io.ErrUnexpectedEOF),
as returned by the UnmarshalBinary / MarshalBinary implementations. -/
inductive AoEErr
  | unexpectedEOF
  | unrecognizedCommandCode
  | badArgumentParameter
  | unsupportedVersion
  deriving Repr, DecidableEq

deriving instance DecidableEq for Except

/-- Result of a Go MarshalBinary call: bytes, a returned error, or a runtime
panic (out-of-range slice indexing). -/
inductive MResult (α : Type)
  | ok (val : α)
  | err (e : AoEErr)
  | panicked
  deriving Repr, DecidableEq

/-- The Go builtin copy of src into b at offset n (the Go code only uses this when
n + src.length ≤ b.length, which the callers check or panic first). -/
def writeAt (b : List Nat) (n : Nat) (src : List Nat) : List Nat :=
  b.take n ++ src ++ b.drop (n + src.length)

/-! ### ATAArg codec (ataarg.go, src/unnamed/part_004 companion file) -/

/-- ATAArg: argument to Command 0 (Issue ATA Command).  The six LBA bytes of
the Go array `LBA [6]uint8` are the fields lba0..lba5 (the source indexes
them individually). -/
structure ATAArg where
  flagLBA48Extended : Bool := false
  flagATADeviceHeadRegister : Bool := false
  flagAsynchronous : Bool := false
  flagWrite : Bool := false
  errFeature : Nat := 0
  sectorCount : Nat := 0
  cmdStatus : Nat := 0
  lba0 : Nat := 0
  lba1 : Nat := 0
  lba2 : Nat := 0
  lba3 : Nat := 0
  lba4 : Nat := 0
  lba5 : Nat := 0
  data : List Nat := []
  deriving Repr, DecidableEq

/-- ATAArg.MarshalBinary: 12 fixed bytes (flags, err/feature, sector count,
cmd/status, 6 LBA bytes, 2 reserved zero bytes) followed by the data.
It never returns an error and never panics. -/
def ATAArg.marshalBinary (a : ATAArg) : List Nat :=
  let flags :=
    (if a.flagLBA48Extended then 64 else 0) |||
    (if a.flagATADeviceHeadRegister then 16 else 0) |||
    (if a.flagAsynchronous then 2 else 0) |||
    (if a.flagWrite then 1 else 0)
  flags :: a.errFeature :: a.sectorCount :: a.cmdStatus ::
    a.lba0 :: a.lba1 :: a.lba2 :: a.lba3 :: a.lba4 :: a.lba5 :: 0 :: 0 :: a.data

/-- ATAArg.UnmarshalBinary. -/
def ATAArg.unmarshalBinary (b : List Nat) : Except AoEErr ATAArg :=
  if b.length < 12 then .error .unexpectedEOF
  else if b.getD 10 0 ≠ 0 ∨ b.getD 11 0 ≠ 0 then .error .badArgumentParameter
  else .ok {
    flagLBA48Extended := (b.getD 0 0) &&& 64 != 0
    flagATADeviceHeadRegister := (b.getD 0 0) &&& 16 != 0
    flagAsynchronous := (b.getD 0 0) &&& 2 != 0
    flagWrite := (b.getD 0 0) &&& 1 != 0
    errFeature := b.getD 1 0
    sectorCount := b.getD 2 0
    cmdStatus := b.getD 3 0
    lba0 := b.getD 4 0
    lba1 := b.getD 5 0
    lba2 := b.getD 6 0
    lba3 := b.getD 7 0
    lba4 := b.getD 8 0
    lba5 := b.getD 9 0
    data := b.drop 12 }

/-! ### ConfigArg codec (configarg.go) -/

/-- ConfigArg: argument to Command 1 (Query Config Information). -/
structure ConfigArg where
  bufferCount : Nat := 0
  firmwareVersion : Nat := 0
  sectorCount : Nat := 0
  version : Nat := 0
  command : Nat := 0
  stringLength : Nat := 0
  string : List Nat := []
  deriving Repr, DecidableEq

/-- ConfigArg.MarshalBinary.  Byte 5 is built in uint8 arithmetic as
`Version << 4 | Command`; the shift wraps mod 256, so only the low four
bits of Version survive. -/
def ConfigArg.marshalBinary (c : ConfigArg) : MResult (List Nat) :=
  if 0xf < c.command then .err .badArgumentParameter
  else if c.stringLength ≠ c.string.length then .err .badArgumentParameter
  else if 1024 < c.stringLength then .err .badArgumentParameter
  else
    .ok ([c.bufferCount / 256 % 256, c.bufferCount % 256,
          c.firmwareVersion / 256 % 256, c.firmwareVersion % 256,
          c.sectorCount,
          ((c.version <<< 4) % 256) ||| c.command,
          c.stringLength / 256 % 256, c.stringLength % 256] ++ c.string)

/-- ConfigArg.UnmarshalBinary.  Note the order of the checks: the
too-few-remaining-bytes check (UnexpectedEOF) comes before the
string-length > 1024 check (BadArgumentParameter), as in the source. -/
def ConfigArg.unmarshalBinary (b : List Nat) : Except AoEErr ConfigArg :=
  if b.length < 8 then .error .unexpectedEOF
  else
    let strLen := (b.getD 6 0) * 256 + b.getD 7 0
    if (b.drop 8).length < strLen then .error .unexpectedEOF
    else if 1024 < strLen then .error .badArgumentParameter
    else .ok {
      bufferCount := (b.getD 0 0) * 256 + b.getD 1 0
      firmwareVersion := (b.getD 2 0) * 256 + b.getD 3 0
      sectorCount := b.getD 4 0
      version := (b.getD 5 0) >>> 4
      command := (b.getD 5 0) &&& 0xf
      stringLength := strLen
      string := (b.drop 8).take strLen }

/-! ### Directive and MACMaskArg codec (src/unnamed/part_002 companion file) -/

/-- A MAC mask Directive. -/
structure Directive where
  command : Nat := 0
  mac : List Nat := []
  deriving Repr, DecidableEq

/-- Directive.MarshalBinary: reserved zero byte, command byte, 6 MAC bytes. -/
def Directive.marshalBinary (d : Directive) : MResult (List Nat) :=
  if d.mac.length ≠ 6 then .err .badArgumentParameter
  else .ok (0 :: d.command :: d.mac)

/-- Directive.UnmarshalBinary: requires exactly 8 bytes, reserved byte zero. -/
def Directive.unmarshalBinary (b : List Nat) : Except AoEErr Directive :=
  if b.length ≠ 8 then .error .unexpectedEOF
  else if b.getD 0 0 ≠ 0 then .error .badArgumentParameter
  else .ok { command := b.getD 1 0, mac := (b.drop 2).take 6 }

/-- MACMaskArg: argument to Command 2 (MAC Mask List). -/
structure MACMaskArg where
  command : Nat := 0
  error : Nat := 0
  dirCount : Nat := 0
  directives : List Directive := []
  deriving Repr, DecidableEq

/-- The marshal loop of MACMaskArg.MarshalBinary: marshal each directive and
copy it into the buffer at offset n.  The Go slice expression b[n:n+8]
panics when n+8 exceeds the buffer length. -/
def MACMaskArg.marshalLoop (ds : List Directive) (n : Nat) (b : List Nat) :
    MResult (List Nat) :=
  match ds with
  | [] => .ok b
  | d :: rest =>
    match d.marshalBinary with
    | .err e => .err e
    | .panicked => .panicked
    | .ok db =>
      if n + 8 ≤ b.length then MACMaskArg.marshalLoop rest (n + 8) (writeAt b n db)
      else .panicked

/-- MACMaskArg.MarshalBinary.  The buffer size is computed in Go uint8
arithmetic: `macMaskArgLen + (directiveLen*m.DirCount)` with DirCount a
uint8, i.e. `(4 + (8*dirCount) % 256) % 256`; since `(8*dirCount) % 256` is
a multiple of 8 the outer mod never fires and the size is always ≥ 4, but
for dirCount ≥ 32 the buffer is too small and the copy loop panics. -/
def MACMaskArg.marshalBinary (m : MACMaskArg) : MResult (List Nat) :=
  if m.dirCount ≠ m.directives.length then .err .badArgumentParameter
  else
    let size := (4 + (8 * m.dirCount) % 256) % 256
    MACMaskArg.marshalLoop m.directives 4
      (0 :: m.command :: m.error :: m.dirCount :: List.replicate (size - 4) 0)

/-- The decode loop of MACMaskArg.UnmarshalBinary: decode k directives, 8
bytes each. -/
def MACMaskArg.unmarshalDirs (rest : List Nat) : Nat → Except AoEErr (List Directive)
  | 0 => .ok []
  | k+1 =>
    match Directive.unmarshalBinary (rest.take 8) with
    | .error e => .error e
    | .ok d =>
      match MACMaskArg.unmarshalDirs (rest.drop 8) k with
      | .error e => .error e
      | .ok ds => .ok (d :: ds)

/-- MACMaskArg.UnmarshalBinary. -/
def MACMaskArg.unmarshalBinary (b : List Nat) : Except AoEErr MACMaskArg :=
  if b.length < 4 then .error .unexpectedEOF
  else if b.getD 0 0 ≠ 0 then .error .badArgumentParameter
  else if (b.drop 4).length ≠ 8 * b.getD 3 0 then .error .unexpectedEOF
  else
    match MACMaskArg.unmarshalDirs (b.drop 4) (b.getD 3 0) with
    | .error e => .error e
    | .ok ds => .ok { command := b.getD 1 0, error := b.getD 2 0,
                      dirCount := b.getD 3 0, directives := ds }

/-! ### ReserveReleaseArg codec (reservereleasearg.go) -/

/-- ReserveReleaseArg: argument to Command 3 (Reserve/Release). -/
structure ReserveReleaseArg where
  command : Nat := 0
  nmacs : Nat := 0
  macs : List (List Nat) := []
  deriving Repr, DecidableEq

/-- The marshal loop of ReserveReleaseArg.MarshalBinary: check each MAC is 6
bytes, then copy it at offset n.  The Go slice expression b[n:n+6] panics
when n+6 exceeds the buffer length. -/
def ReserveReleaseArg.marshalLoop (ms : List (List Nat)) (n : Nat) (b : List Nat) :
    MResult (List Nat) :=
  match ms with
  | [] => .ok b
  | m :: rest =>
    if m.length ≠ 6 then .err .badArgumentParameter
    else if n + 6 ≤ b.length then ReserveReleaseArg.marshalLoop rest (n + 6) (writeAt b n m)
    else .panicked

/-- ReserveReleaseArg.MarshalBinary.  The buffer size is computed in Go uint8
arithmetic: `reserveReleaseArgLen + (r.NMACs*6)` with NMACs a uint8, i.e.
`(2 + (6*nmacs) % 256) % 256`.  For nmacs ≥ 43 the size wraps and the copy
loop (or, when the size wraps below 2, already the header-byte store
b[0] = Command) panics. -/
def ReserveReleaseArg.marshalBinary (r : ReserveReleaseArg) : MResult (List Nat) :=
  if r.nmacs ≠ r.macs.length then .err .badArgumentParameter
  else
    let size := (2 + (6 * r.nmacs) % 256) % 256
    if size < 2 then .panicked
    else ReserveReleaseArg.marshalLoop r.macs 2
      (r.command :: r.nmacs :: List.replicate (size - 2) 0)

/-- The decode loop of ReserveReleaseArg.UnmarshalBinary: slice k MACs of 6
bytes each out of the remainder. -/
def ReserveReleaseArg.unmarshalMacs (rest : List Nat) : Nat → List (List Nat)
  | 0 => []
  | k+1 => rest.take 6 :: ReserveReleaseArg.unmarshalMacs (rest.drop 6) k

/-- ReserveReleaseArg.UnmarshalBinary. -/
def ReserveReleaseArg.unmarshalBinary (b : List Nat) : Except AoEErr ReserveReleaseArg :=
  if b.length < 2 then .error .unexpectedEOF
  else if (b.drop 2).length ≠ 6 * b.getD 1 0 then .error .unexpectedEOF
  else .ok { command := b.getD 0 0, nmacs := b.getD 1 0,
             macs := ReserveReleaseArg.unmarshalMacs (b.drop 2) (b.getD 1 0) }

/-! ### Header codec (src/unnamed/part_004) -/

/-- The Arg interface: one of the four argument variants. -/
inductive Arg
  | ata (a : ATAArg)
  | config (c : ConfigArg)
  | macMask (m : MACMaskArg)
  | reserveRelease (r : ReserveReleaseArg)
  deriving Repr, DecidableEq

/-- An AoE Header.  `arg = none` models a nil Arg field. -/
structure Header where
  version : Nat := 0
  flagResponse : Bool := false
  flagError : Bool := false
  error : Nat := 0
  major : Nat := 0
  minor : Nat := 0
  command : Nat := 0
  tag0 : Nat := 0
  tag1 : Nat := 0
  tag2 : Nat := 0
  tag3 : Nat := 0
  arg : Option Arg := none
  deriving Repr, DecidableEq

/-- Dispatch of Arg.MarshalBinary over the four variants. -/
def Arg.marshalBinary : Arg → MResult (List Nat)
  | .ata a => .ok a.marshalBinary
  | .config c => c.marshalBinary
  | .macMask m => m.marshalBinary
  | .reserveRelease r => r.marshalBinary

/-- Header.MarshalBinary: version must be 1, Arg must be present, and any
error (or panic) of the argument encoder propagates. -/
def Header.marshalBinary (h : Header) : MResult (List Nat) :=
  if h.version ≠ 1 then .err .unsupportedVersion
  else
    match h.arg with
    | none => .err .badArgumentParameter
    | some a =>
      match a.marshalBinary with
      | .err e => .err e
      | .panicked => .panicked
      | .ok ab =>
        let vf := ((h.version <<< 4) % 256) |||
          (if h.flagResponse then 8 else 0) ||| (if h.flagError then 4 else 0)
        .ok (vf :: h.error :: h.major / 256 % 256 :: h.major % 256 ::
             h.minor :: h.command :: h.tag0 :: h.tag1 :: h.tag2 :: h.tag3 :: ab)

/-- Header.UnmarshalBinary: length ≥ 10, version nibble must be 1 (checked
before the command), then the command byte selects the argument variant. -/
def Header.unmarshalBinary (b : List Nat) : Except AoEErr Header :=
  if b.length < 10 then .error .unexpectedEOF
  else if (b.getD 0 0) >>> 4 ≠ 1 then .error .unsupportedVersion
  else
    let cmd := b.getD 5 0
    let mk : Arg → Header := fun a =>
      { version := (b.getD 0 0) >>> 4
        flagResponse := (b.getD 0 0) &&& 8 != 0
        flagError := (b.getD 0 0) &&& 4 != 0
        error := b.getD 1 0
        major := (b.getD 2 0) * 256 + b.getD 3 0
        minor := b.getD 4 0
        command := cmd
        tag0 := b.getD 6 0
        tag1 := b.getD 7 0
        tag2 := b.getD 8 0
        tag3 := b.getD 9 0
        arg := some a }
    if cmd = 0 then (ATAArg.unmarshalBinary (b.drop 10)).map (fun a => mk (.ata a))
    else if cmd = 1 then (ConfigArg.unmarshalBinary (b.drop 10)).map (fun c => mk (.config c))
    else if cmd = 2 then (MACMaskArg.unmarshalBinary (b.drop 10)).map (fun m => mk (.macMask m))
    else if cmd = 3 then (ReserveReleaseArg.unmarshalBinary (b.drop 10)).map (fun r => mk (.reserveRelease r))
    else .error .unrecognizedCommandCode

/-! ### ATA request handler (ata.go) -/

/-- Handler-level failures of ServeATA and its helpers: the two exported
sentinel errors, the internal abort sentinel, and opaque I/O errors coming
out of the backing store (identified by a numeric code). -/
inductive ATAErr
  | invalidRequest
  | notImplemented
  | abort
  | storeErr (code : Nat)
  deriving Repr, DecidableEq

/-- One operation performed on the backing io.ReadSeeker. -/
inductive StoreOp
  | seek (offset : Int)
  | readOp (len : Nat)
  | writeOp (data : List Nat)
  | identifyOp
  deriving Repr, DecidableEq

/-- The backing store (io.ReadSeeker, possibly also io.Writer and
Identifier), modelled as an oracle.  `readFn n` returns the number of bytes
reported read together with the n-byte buffer contents after the call;
`writeFn d` returns the number of bytes reported written; `isWriter` is the
io.ReadWriteSeeker type assertion; `identifyFn = none` means the store is
not an Identifier. -/
structure Store where
  seekFn : Int → Except Nat Int
  readFn : Nat → Except Nat (Nat × List Nat)
  writeFn : List Nat → Except Nat Nat
  isWriter : Bool
  identifyFn : Option (Except Nat (List Nat))

/-- calculateLBA: pack the six LBA bytes plus two zero bytes as a
little-endian uint64 (binary.LittleEndian.Uint64), then mask to 48 or 28
bits. -/
def calculateLBA (l0 l1 l2 l3 l4 l5 : Nat) (is48Bit : Bool) : Int :=
  let lba := l0 ||| (l1 <<< 8) ||| (l2 <<< 16) ||| (l3 <<< 24) |||
             (l4 <<< 32) ||| (l5 <<< 40)
  if is48Bit then ((lba &&& 0xffffffffffff : Nat) : Int)
  else ((lba &&& 0xfffffff : Nat) : Int)

/-- The byte offset used by ataRead / ataWrite: LBA times the 512-byte
sector size. -/
def ataOffset (a : ATAArg) : Int :=
  calculateLBA a.lba0 a.lba1 a.lba2 a.lba3 a.lba4 a.lba5 a.flagLBA48Extended * 512

/-- ataIdentify, returning the reply argument (or failure) together with the
trace of backing-store operations performed. -/
def ataIdentify (r : ATAArg) (rs : Store) : Except ATAErr ATAArg × List StoreOp :=
  if r.cmdStatus ≠ 0xec then (.error .abort, [])
  else if r.sectorCount ≠ 1 then (.error .abort, [])
  else
    match rs.identifyFn with
    | none => (.error .notImplemented, [])
    | some (.error c) => (.error (.storeErr c), [.identifyOp])
    | some (.ok id) => (.ok { cmdStatus := 0x40, data := id }, [.identifyOp])

/-- ataRead: seek to the LBA offset, read sectorCount*512 bytes once, abort
on a short read, otherwise reply ReadyStatus with the buffer as data. -/
def ataRead (r : ATAArg) (rs : Store) : Except ATAErr ATAArg × List StoreOp :=
  if r.cmdStatus ≠ 0x20 ∧ r.cmdStatus ≠ 0x24 then (.error .abort, [])
  else if r.flagWrite then (.error .abort, [])
  else
    match rs.seekFn (ataOffset r) with
    | .error c => (.error (.storeErr c), [.seek (ataOffset r)])
    | .ok _ =>
      match rs.readFn (r.sectorCount * 512) with
      | .error c => (.error (.storeErr c), [.seek (ataOffset r), .readOp (r.sectorCount * 512)])
      | .ok (n, buf) =>
        if n / 512 ≠ r.sectorCount then
          (.error .abort, [.seek (ataOffset r), .readOp (r.sectorCount * 512)])
        else
          (.ok { cmdStatus := 0x40, data := buf },
           [.seek (ataOffset r), .readOp (r.sectorCount * 512)])

/-- ataWrite: preconditions (write opcode, write flag, data length matching
the sector count, a writable store), then seek and one write; abort on a
short write, otherwise reply ReadyStatus with no data. -/
def ataWrite (r : ATAArg) (rs : Store) : Except ATAErr ATAArg × List StoreOp :=
  if r.cmdStatus ≠ 0x30 ∧ r.cmdStatus ≠ 0x34 then (.error .abort, [])
  else if ¬ r.flagWrite then (.error .abort, [])
  else if r.data.length / 512 ≠ r.sectorCount then (.error .abort, [])
  else if ¬ rs.isWriter then (.error .abort, [])
  else
    match rs.seekFn (ataOffset r) with
    | .error c => (.error (.storeErr c), [.seek (ataOffset r)])
    | .ok _ =>
      match rs.writeFn r.data with
      | .error c => (.error (.storeErr c), [.seek (ataOffset r), .writeOp r.data])
      | .ok n =>
        if n / 512 ≠ r.sectorCount then
          (.error .abort, [.seek (ataOffset r), .writeOp r.data])
        else
          (.ok { cmdStatus := 0x40 }, [.seek (ataOffset r), .writeOp r.data])

/-- The abort reply argument: CmdStatus = ErrStatus (0x01),
ErrFeature = ATAErrAbort (0x04). -/
def abortArg : ATAArg := { cmdStatus := 1, errFeature := 4 }

/-- The CheckPower / Flush reply argument: SectorCount = 0xff,
CmdStatus = ReadyStatus (0x40). -/
def powerArg : ATAArg := { sectorCount := 0xff, cmdStatus := 0x40 }

/-- Outcome of ServeATA: either exactly one reply header (whose ATAArg is
recorded; the surrounding ResponseSender fills in the header fields) was
sent, or an error was returned to the caller and nothing was sent. -/
inductive ServeResult
  | sent (reply : ATAArg)
  | failed (e : ATAErr)
  deriving Repr, DecidableEq

/-- ServeATA, together with the trace of backing-store operations.  Requests
that are not Issue-ATA commands fail with ErrInvalidATARequest; CheckPower
and Flush are answered immediately with no device I/O; other opcodes
dispatch to ataIdentify / ataRead / ataWrite; the abort sentinel becomes the
abort reply, every other error is returned to the caller. -/
def serveATA (r : Header) (rs : Store) : ServeResult × List StoreOp :=
  if r.command ≠ 0 then (.failed .invalidRequest, [])
  else
    match r.arg with
    | some (.ata arg) =>
      if arg.cmdStatus = 0xe5 ∨ arg.cmdStatus = 0xe7 then (.sent powerArg, [])
      else
        let res :=
          if arg.cmdStatus = 0xec then ataIdentify arg rs
          else if arg.cmdStatus = 0x20 ∨ arg.cmdStatus = 0x24 then ataRead arg rs
          else if arg.cmdStatus = 0x30 ∨ arg.cmdStatus = 0x34 then ataWrite arg rs
          else (.error .abort, [])
        (match res.1 with
         | .error .abort => .sent abortArg
         | .error e => .failed e
         | .ok warg => .sent warg,
         res.2)
    | _ => (.failed .invalidRequest, [])

/-! ### Concrete values used by the theorems below -/

/-- A well-behaved backing store: seeks succeed, reads fill the whole buffer
with zeroes, writes report the full length written, the store is writable
and is not an Identifier. -/
def noopStore : Store :=
  { seekFn := fun _ => .ok 0
    readFn := fun l => .ok (l, List.replicate l 0)
    writeFn := fun d => .ok d.length
    isWriter := true
    identifyFn := none }

/-- A 260-byte ReserveRelease frame: version-1 header, command 3, NMACs = 43
followed by 43 all-zero 6-byte MACs. -/
def rrOverflowFrame : List Nat :=
  [0x10, 0, 0, 0, 0, 3, 0, 0, 0, 0] ++ 0 :: 43 :: List.replicate 258 0

/-- The header obtained by decoding rrOverflowFrame. -/
def rrOverflowHeader : Header :=
  { version := 1, command := 3,
    arg := some (.reserveRelease
      { command := 0, nmacs := 43, macs := List.replicate 43 (List.replicate 6 0) }) }

/-- A 268-byte MACMask frame: version-1 header, command 2, DirCount = 32
followed by 32 all-zero 8-byte directives. -/
def mmOverflowFrame : List Nat :=
  [0x10, 0, 0, 0, 0, 2, 0, 0, 0, 0] ++ 0 :: 0 :: 0 :: 32 :: List.replicate 256 0

/-- The header obtained by decoding mmOverflowFrame. -/
def mmOverflowHeader : Header :=
  { version := 1, command := 2,
    arg := some (.macMask
      { command := 0, error := 0, dirCount := 32,
        directives := List.replicate 32 { command := 0, mac := List.replicate 6 0 } }) }

/-- A ReserveReleaseArg that UnmarshalBinary produces (hence valid: NMACs
matches the list length and all MACs are 6 bytes) but whose MarshalBinary
panics: 43 MACs overflow the uint8 buffer-size computation. -/
def rrOverflowArg : ReserveReleaseArg :=
  { command := 1, nmacs := 43, macs := List.replicate 43 [1, 2, 3, 4, 5, 6] }

/-- The wire form of rrOverflowArg (what a correct encoder would produce and
what UnmarshalBinary accepts). -/
def rrOverflowArgBytes : List Nat :=
  1 :: 43 :: (List.replicate 43 [1, 2, 3, 4, 5, 6]).flatten

/-- A MACMaskArg that UnmarshalBinary produces but whose MarshalBinary
panics: 32 directives overflow the uint8 buffer-size computation. -/
def mmOverflowArg : MACMaskArg :=
  { command := 1, error := 0, dirCount := 32,
    directives := List.replicate 32 { command := 2, mac := [1, 2, 3, 4, 5, 6] } }

/-- The wire form of mmOverflowArg. -/
def mmOverflowArgBytes : List Nat :=
  0 :: 1 :: 0 :: 32 :: (List.replicate 32 [0, 2, 1, 2, 3, 4, 5, 6]).flatten

/-- The go-fuzz crasher input from the regression test:
"\x10" "0000" "\x01" "0000000000" "\x00\x00" (18 bytes). -/
def fuzzCrasherBytes : List Nat :=
  [0x10, 0x30, 0x30, 0x30, 0x30, 0x01, 0x30, 0x30, 0x30, 0x30,
   0x30, 0x30, 0x30, 0x30, 0x30, 0x30, 0x00, 0x00]

/-- The ConfigArg decoded from the tail of fuzzCrasherBytes; its inner
Version field is 3, not 1. -/
def fuzzCrasherConfig : ConfigArg :=
  { bufferCount := 0x3030, firmwareVersion := 0x3030, sectorCount := 0x30,
    version := 3, command := 0, stringLength := 0, string := [] }

/-- The header decoded from fuzzCrasherBytes. -/
def fuzzCrasherHeader : Header :=
  { version := 1, error := 0x30, major := 0x3030, minor := 0x30, command := 1,
    tag0 := 0x30, tag1 := 0x30, tag2 := 0x30, tag3 := 0x30,
    arg := some (.config fuzzCrasherConfig) }

/-- An 8-byte ConfigArg input whose string-length field is 65535 (> 1024)
but with no string bytes at all. -/
def configShortOverlong : List Nat := [0, 0, 0, 0, 0, 0, 255, 255]

/-- A ConfigArg input whose string-length field is 1025 (> 1024) and which
carries 1025 string bytes, so the length check passes. -/
def configLongOverlong : List Nat := [0, 0, 0, 0, 0, 0, 4, 1] ++ List.replicate 1025 7

/-- A request header for an ATA write (Write28) of 2 sectors whose payload
is only 1023 bytes: the sector-count check 1023 / 512 = 1 ≠ 2 fails. -/
def shortWriteRequest : Header :=
  { command := 0,
    arg := some (.ata { cmdStatus := 0x30, flagWrite := true, sectorCount := 2,
                        data := List.replicate 1023 0 }) }

/-- The ATA argument of a well-formed 2-sector Write28 request. -/
def okWriteArg : ATAArg :=
  { cmdStatus := 0x30, flagWrite := true, sectorCount := 2,
    lba0 := 1, data := List.replicate 1024 9 }

/-- A ConfigArg whose Version does not fit in four bits. -/
def configVersion20 : ConfigArg :=
  { bufferCount := 1, firmwareVersion := 2, sectorCount := 3,
    version := 20, command := 2, stringLength := 0, string := [] }

/-! ### Helper lemmas -/

/-- Bitwise or of a multiple of 16 with a nibble is addition. -/
theorem or_sixteen_mul_add : ∀ k < 16, ∀ a < 16, (16 * k) ||| a = 16 * k + a := by decide

/-- Bitwise or with a shifted term is addition when the low term is small. -/
theorem or_shift_add (m a b : Nat) (hb : b < 2 ^ m) :
    (2 ^ m * a) ||| b = 2 ^ m * a + b :=
  (Nat.mul_add_lt_is_or hb a).symm

/-! ### C9: go-fuzz crasher regression -/

/-- C9: the 18-byte go-fuzz crasher input decodes to a header whose
ConfigArg carries inner Version 3 (≠ 1), and re-encoding that header
succeeds and reproduces the original bytes exactly: decode does not gate on
the inner ConfigArg version and the round trip is byte-for-byte. -/
theorem C9_fuzz_crasher_roundtrip :
    Header.unmarshalBinary fuzzCrasherBytes = .ok fuzzCrasherHeader ∧
    fuzzCrasherHeader.arg = some (.config fuzzCrasherConfig) ∧
    fuzzCrasherConfig.version = 3 ∧
    fuzzCrasherConfig.version ≠ 1 ∧
    Header.marshalBinary fuzzCrasherHeader = .ok fuzzCrasherBytes ∧
    fuzzCrasherBytes.length = 18 := by
  refine ⟨by decide, rfl, rfl, by decide, by decide, by decide⟩

/-! ### C1: fuzz stability fails (encoders panic on large count fields) -/

/-- C1 (code bug witness): two byte inputs on which Header.UnmarshalBinary
succeeds but Header.MarshalBinary of the decoded header panics instead of
succeeding, contradicting the fuzz-stability property.  The ReserveRelease
frame carries NMACs = 43 (buffer size 2 + 6·43 wraps to 4 in uint8
arithmetic), the MACMask frame carries DirCount = 32 (buffer size 4 + 8·32
wraps to 4). -/
theorem C1_encode_panics_after_decode :
    Header.unmarshalBinary rrOverflowFrame = .ok rrOverflowHeader ∧
    Header.marshalBinary rrOverflowHeader = .panicked ∧
    Header.unmarshalBinary mmOverflowFrame = .ok mmOverflowHeader ∧
    Header.marshalBinary mmOverflowHeader = .panicked := by
  refine ⟨by decide, by decide, by decide, by decide⟩

/-! ### C2: round trip fails on the same overflow (code bug) -/

/-- C2 (code bug witness): valid argument values — NMACs / DirCount equal to
the list lengths, every MAC exactly 6 bytes, both values reproduced by
UnmarshalBinary from their wire form — on which MarshalBinary panics, so
UnmarshalBinary ∘ MarshalBinary cannot return the value. -/
theorem C2_roundtrip_broken_by_overflow :
    ReserveReleaseArg.unmarshalBinary rrOverflowArgBytes = .ok rrOverflowArg ∧
    ReserveReleaseArg.marshalBinary rrOverflowArg = .panicked ∧
    MACMaskArg.unmarshalBinary mmOverflowArgBytes = .ok mmOverflowArg ∧
    MACMaskArg.marshalBinary mmOverflowArg = .panicked := by
  refine ⟨by decide, by decide, by decide, by decide⟩

/-! ### C5: calculateLBA -/

/-- For byte-sized inputs the little-endian bit packing used by calculateLBA
(or of shifted bytes, as in binary.LittleEndian.Uint64) equals the
positional base-256 value. -/
theorem lePack_eq_sum (l0 l1 l2 l3 l4 l5 : Nat)
    (h0 : l0 < 256) (h1 : l1 < 256) (h2 : l2 < 256)
    (h3 : l3 < 256) (h4 : l4 < 256) (_h5 : l5 < 256) :
    l0 ||| l1 <<< 8 ||| l2 <<< 16 ||| l3 <<< 24 ||| l4 <<< 32 ||| l5 <<< 40 =
      l0 + l1 * 2 ^ 8 + l2 * 2 ^ 16 + l3 * 2 ^ 24 + l4 * 2 ^ 32 + l5 * 2 ^ 40 := by
  have hb1 : l0 < 2 ^ 8 := lt_of_lt_of_le h0 (by norm_num)
  have e1 : l0 ||| l1 <<< 8 = 2 ^ 8 * l1 + l0 := by
    rw [Nat.shiftLeft_eq, Nat.lor_comm, mul_comm l1 (2 ^ 8)]
    exact (Nat.mul_add_lt_is_or hb1 l1).symm
  have hb2 : 2 ^ 8 * l1 + l0 < 2 ^ 16 := by norm_num; omega
  have e2 : 2 ^ 8 * l1 + l0 ||| l2 <<< 16 = 2 ^ 16 * l2 + (2 ^ 8 * l1 + l0) := by
    rw [Nat.shiftLeft_eq, Nat.lor_comm, mul_comm l2 (2 ^ 16)]
    exact (Nat.mul_add_lt_is_or hb2 l2).symm
  have hb3 : 2 ^ 16 * l2 + (2 ^ 8 * l1 + l0) < 2 ^ 24 := by norm_num; omega
  have e3 : 2 ^ 16 * l2 + (2 ^ 8 * l1 + l0) ||| l3 <<< 24 =
      2 ^ 24 * l3 + (2 ^ 16 * l2 + (2 ^ 8 * l1 + l0)) := by
    rw [Nat.shiftLeft_eq, Nat.lor_comm, mul_comm l3 (2 ^ 24)]
    exact (Nat.mul_add_lt_is_or hb3 l3).symm
  have hb4 : 2 ^ 24 * l3 + (2 ^ 16 * l2 + (2 ^ 8 * l1 + l0)) < 2 ^ 32 := by norm_num; omega
  have e4 : 2 ^ 24 * l3 + (2 ^ 16 * l2 + (2 ^ 8 * l1 + l0)) ||| l4 <<< 32 =
      2 ^ 32 * l4 + (2 ^ 24 * l3 + (2 ^ 16 * l2 + (2 ^ 8 * l1 + l0))) := by
    rw [Nat.shiftLeft_eq, Nat.lor_comm, mul_comm l4 (2 ^ 32)]
    exact (Nat.mul_add_lt_is_or hb4 l4).symm
  have hb5 : 2 ^ 32 * l4 + (2 ^ 24 * l3 + (2 ^ 16 * l2 + (2 ^ 8 * l1 + l0))) < 2 ^ 40 := by
    norm_num; omega
  have e5 : 2 ^ 32 * l4 + (2 ^ 24 * l3 + (2 ^ 16 * l2 + (2 ^ 8 * l1 + l0))) ||| l5 <<< 40 =
      2 ^ 40 * l5 + (2 ^ 32 * l4 + (2 ^ 24 * l3 + (2 ^ 16 * l2 + (2 ^ 8 * l1 + l0)))) := by
    rw [Nat.shiftLeft_eq, Nat.lor_comm, mul_comm l5 (2 ^ 40)]
    exact (Nat.mul_add_lt_is_or hb5 l5).symm
  rw [e1, e2, e3, e4, e5]
  ring

/-- Unfolding of calculateLBA in 48-bit mode. -/
theorem calculateLBA_true (l0 l1 l2 l3 l4 l5 : Nat) :
    calculateLBA l0 l1 l2 l3 l4 l5 true =
      (((l0 ||| l1 <<< 8 ||| l2 <<< 16 ||| l3 <<< 24 ||| l4 <<< 32 ||| l5 <<< 40) &&&
        0xffffffffffff : Nat) : Int) := rfl

/-- Unfolding of calculateLBA in 28-bit mode. -/
theorem calculateLBA_false (l0 l1 l2 l3 l4 l5 : Nat) :
    calculateLBA l0 l1 l2 l3 l4 l5 false =
      (((l0 ||| l1 <<< 8 ||| l2 <<< 16 ||| l3 <<< 24 ||| l4 <<< 32 ||| l5 <<< 40) &&&
        0xfffffff : Nat) : Int) := rfl

/-- C5: calculateLBA interprets the six bytes as the low 48 bits of a
little-endian 64-bit integer and masks the result to 48 bits (LBA48) or 28
bits (otherwise); for any input the result lies in the corresponding range;
and the all-255 input evaluates to 268435455 in 28-bit mode and
281474976710655 in 48-bit mode. -/
theorem C5_calculateLBA_spec :
    (∀ l0 l1 l2 l3 l4 l5 : Nat, l0 < 256 → l1 < 256 → l2 < 256 →
      l3 < 256 → l4 < 256 → l5 < 256 →
      calculateLBA l0 l1 l2 l3 l4 l5 true =
        (((l0 + l1 * 2 ^ 8 + l2 * 2 ^ 16 + l3 * 2 ^ 24 + l4 * 2 ^ 32 + l5 * 2 ^ 40) % 2 ^ 48 : Nat) : Int) ∧
      calculateLBA l0 l1 l2 l3 l4 l5 false =
        (((l0 + l1 * 2 ^ 8 + l2 * 2 ^ 16 + l3 * 2 ^ 24 + l4 * 2 ^ 32 + l5 * 2 ^ 40) % 2 ^ 28 : Nat) : Int)) ∧
    (∀ (l0 l1 l2 l3 l4 l5 : Nat) (f : Bool),
      0 ≤ calculateLBA l0 l1 l2 l3 l4 l5 f ∧
      calculateLBA l0 l1 l2 l3 l4 l5 true < 2 ^ 48 ∧
      calculateLBA l0 l1 l2 l3 l4 l5 false < 2 ^ 28) ∧
    calculateLBA 255 255 255 255 255 255 false = 268435455 ∧
    calculateLBA 255 255 255 255 255 255 true = 281474976710655 := by
  refine ⟨?_, ?_, by decide, by decide⟩
  · intro l0 l1 l2 l3 l4 l5 h0 h1 h2 h3 h4 h5
    have hs := lePack_eq_sum l0 l1 l2 l3 l4 l5 h0 h1 h2 h3 h4 h5
    constructor
    · rw [calculateLBA_true, hs,
        show (281474976710655 : Nat) = 2 ^ 48 - 1 by norm_num,
        Nat.and_pow_two_sub_one_eq_mod]
    · rw [calculateLBA_false, hs,
        show (268435455 : Nat) = 2 ^ 28 - 1 by norm_num,
        Nat.and_pow_two_sub_one_eq_mod]
  · intro l0 l1 l2 l3 l4 l5 f
    refine ⟨?_, ?_, ?_⟩
    · cases f <;> simp only [calculateLBA] <;> exact Int.natCast_nonneg _
    · simp only [calculateLBA]
      exact_mod_cast Nat.lt_of_le_of_lt Nat.and_le_right (by norm_num)
    · simp only [calculateLBA]
      exact_mod_cast Nat.lt_of_le_of_lt Nat.and_le_right (by norm_num)

/-- C5 witness: the general LBA characterisation applied at a concrete
input. -/
theorem C5_witness :
    calculateLBA 255 0 0 0 0 255 false =
      (((255 + 0 * 2 ^ 8 + 0 * 2 ^ 16 + 0 * 2 ^ 24 + 0 * 2 ^ 32 + 255 * 2 ^ 40) % 2 ^ 28 : Nat) : Int) :=
  (C5_calculateLBA_spec.1 255 0 0 0 0 255 (by norm_num) (by norm_num) (by norm_num)
    (by norm_num) (by norm_num) (by norm_num)).2

/-! ### C7: Header.UnmarshalBinary error cases -/

/-- C7: Header.UnmarshalBinary fails UnexpectedEOF on every input shorter
than 10 bytes; fails UnsupportedVersion on every input of length ≥ 10 whose
high nibble of byte 0 is not 1 (in particular version 2 with the unknown
command byte 4, showing the version is checked first); and fails
UnrecognizedCommandCode on every version-1 input whose command byte is not
0, 1, 2 or 3 (in particular command 4). -/
theorem C7_header_decode_errors :
    (∀ b : List Nat, b.length < 10 →
      Header.unmarshalBinary b = .error .unexpectedEOF) ∧
    (∀ b : List Nat, 10 ≤ b.length → (b.getD 0 0) >>> 4 ≠ 1 →
      Header.unmarshalBinary b = .error .unsupportedVersion) ∧
    Header.unmarshalBinary [0x20, 0, 0, 0, 0, 4, 0, 0, 0, 0] = .error .unsupportedVersion ∧
    (∀ b : List Nat, 10 ≤ b.length → (b.getD 0 0) >>> 4 = 1 →
      b.getD 5 0 ≠ 0 → b.getD 5 0 ≠ 1 → b.getD 5 0 ≠ 2 → b.getD 5 0 ≠ 3 →
      Header.unmarshalBinary b = .error .unrecognizedCommandCode) ∧
    Header.unmarshalBinary [0x10, 0, 0, 0, 0, 4, 0, 0, 0, 0] = .error .unrecognizedCommandCode := by
  refine ⟨?_, ?_, by decide, ?_, by decide⟩
  · intro b hlen
    simp only [Header.unmarshalBinary]
    rw [if_pos hlen]
  · intro b hlen hv
    simp only [Header.unmarshalBinary]
    rw [if_neg (by omega), if_pos hv]
  · intro b hlen hv h0 h1 h2 h3
    simp only [Header.unmarshalBinary]
    rw [if_neg (by omega), if_neg (not_not_intro hv), if_neg h0, if_neg h1, if_neg h2,
      if_neg h3]

/-- C7 witness: the three universally quantified cases applied at concrete
inputs. -/
theorem C7_witness :
    Header.unmarshalBinary [] = .error .unexpectedEOF ∧
    Header.unmarshalBinary [0x2f, 1, 2, 3, 4, 5, 6, 7, 8, 9] = .error .unsupportedVersion ∧
    Header.unmarshalBinary [0x1f, 1, 2, 3, 4, 9, 6, 7, 8, 9] = .error .unrecognizedCommandCode :=
  ⟨C7_header_decode_errors.1 [] (by decide),
   C7_header_decode_errors.2.1 [0x2f, 1, 2, 3, 4, 5, 6, 7, 8, 9] (by decide) (by decide),
   C7_header_decode_errors.2.2.2.1 [0x1f, 1, 2, 3, 4, 9, 6, 7, 8, 9] (by decide) (by decide)
     (by decide) (by decide) (by decide) (by decide)⟩

/-! ### C8: ConfigArg decode of an over-long string-length field -/

/-- C8 counterexample: an 8-byte input whose string-length field is 65535
(> 1024) is rejected with UnexpectedEOF, not BadArgumentParameter, because
the remaining-bytes check runs first. -/
theorem C8_counterexample_eof_first :
    (configShortOverlong.getD 6 0) * 256 + configShortOverlong.getD 7 0 = 65535 ∧
    ConfigArg.unmarshalBinary configShortOverlong = .error .unexpectedEOF ∧
    ConfigArg.unmarshalBinary configShortOverlong ≠ .error .badArgumentParameter := by
  refine ⟨by decide, by decide, by decide⟩

/-- C8 (amended): ConfigArg.UnmarshalBinary returns BadArgumentParameter on
every input whose string-length field (bytes 6 and 7, big-endian) exceeds
1024, provided at least string-length bytes remain after the 8-byte fixed
prefix; with fewer remaining bytes it returns UnexpectedEOF instead. -/
theorem C8_config_overlong_string (b : List Nat) (h8 : 8 ≤ b.length)
    (hrem : (b.getD 6 0) * 256 + b.getD 7 0 ≤ b.length - 8)
    (hbig : 1024 < (b.getD 6 0) * 256 + b.getD 7 0) :
    ConfigArg.unmarshalBinary b = .error .badArgumentParameter := by
  unfold ConfigArg.unmarshalBinary
  rw [if_neg (by omega)]
  simp only [List.length_drop]
  rw [if_neg (by omega), if_pos hbig]

/-- C8 witness: the amended statement applied at a 1033-byte input whose
string-length field is 1025. -/
theorem C8_witness :
    ConfigArg.unmarshalBinary configLongOverlong = .error .badArgumentParameter :=
  C8_config_overlong_string configLongOverlong (by decide) (by decide) (by decide)

/-! ### C10: ConfigArg version survives the round trip only modulo 16 -/

/-- Cons form of ConfigArg.UnmarshalBinary: with the eight fixed bytes
explicit, decode reduces to the string-length checks and the field reads. -/
theorem ConfigArg.unmarshal_cons (b0 b1 b2 b3 b4 b5 b6 b7 : Nat) (rest : List Nat) :
    ConfigArg.unmarshalBinary (b0 :: b1 :: b2 :: b3 :: b4 :: b5 :: b6 :: b7 :: rest) =
      (if rest.length < b6 * 256 + b7 then .error .unexpectedEOF
       else if 1024 < b6 * 256 + b7 then .error .badArgumentParameter
       else .ok { bufferCount := b0 * 256 + b1, firmwareVersion := b2 * 256 + b3,
                  sectorCount := b4, version := b5 >>> 4, command := b5 &&& 0xf,
                  stringLength := b6 * 256 + b7, string := rest.take (b6 * 256 + b7) }) := by
  unfold ConfigArg.unmarshalBinary
  rw [if_neg (by simp only [List.length_cons]; omega)]
  rfl

/-- C10: for every ConfigArg meeting the documented encode preconditions,
decoding its encoding yields a ConfigArg whose Version is the original
Version mod 16 (byte 5 is built as Version << 4 in 8-bit arithmetic), so
the Version field survives the round trip exactly when it is at most 15. -/
theorem C10_config_version_low_bits (c : ConfigArg) (h1 : c.command ≤ 0xf)
    (h2 : c.stringLength = c.string.length) (h3 : c.stringLength ≤ 1024) :
    ∃ bs c2, c.marshalBinary = .ok bs ∧ ConfigArg.unmarshalBinary bs = .ok c2 ∧
      c2.version = c.version % 16 ∧ (c2.version = c.version ↔ c.version ≤ 15) := by
  have hshift : c.version <<< 4 = c.version * 16 := by
    rw [Nat.shiftLeft_eq]
  have hmod : c.version * 16 % 256 = c.version % 16 * 16 := by
    rw [show (256 : Nat) = 16 * 16 by norm_num]
    exact Nat.mul_mod_mul_right 16 c.version 16
  have hor : c.version % 16 * 16 ||| c.command = 16 * (c.version % 16) + c.command := by
    rw [mul_comm (c.version % 16) 16]
    exact or_sixteen_mul_add (c.version % 16) (Nat.mod_lt _ (by norm_num)) c.command (by omega)
  have hver : (16 * (c.version % 16) + c.command) >>> 4 = c.version % 16 := by
    rw [Nat.shiftRight_eq_div_pow, show (2 : Nat) ^ 4 = 16 by norm_num]
    omega
  have hmarshal : c.marshalBinary = .ok ([c.bufferCount / 256 % 256, c.bufferCount % 256,
      c.firmwareVersion / 256 % 256, c.firmwareVersion % 256, c.sectorCount,
      ((c.version <<< 4) % 256) ||| c.command,
      c.stringLength / 256 % 256, c.stringLength % 256] ++ c.string) := by
    unfold ConfigArg.marshalBinary
    rw [if_neg (by omega), if_neg (not_not_intro h2), if_neg (by omega)]
  refine ⟨_, { bufferCount := c.bufferCount / 256 % 256 * 256 + c.bufferCount % 256,
               firmwareVersion := c.firmwareVersion / 256 % 256 * 256 + c.firmwareVersion % 256,
               sectorCount := c.sectorCount,
               version := (((c.version <<< 4) % 256) ||| c.command) >>> 4,
               command := (((c.version <<< 4) % 256) ||| c.command) &&& 0xf,
               stringLength := c.stringLength,
               string := c.string.take c.stringLength },
          hmarshal, ?_, ?_, ?_⟩
  · simp only [List.cons_append, List.nil_append]
    rw [ConfigArg.unmarshal_cons,
      show c.stringLength / 256 % 256 * 256 + c.stringLength % 256 = c.stringLength by omega]
    rw [if_neg (by omega), if_neg (by omega)]
  · show (((c.version <<< 4) % 256) ||| c.command) >>> 4 = c.version % 16
    rw [hshift, hmod, hor]
    exact hver
  · show (((c.version <<< 4) % 256) ||| c.command) >>> 4 = c.version ↔ c.version ≤ 15
    rw [hshift, hmod, hor, hver]
    omega

/-- C10 witness: the characterisation applied to a ConfigArg whose Version
is 20; the decoded Version is 4 = 20 mod 16 and the round trip does not
preserve it. -/
theorem C10_witness :
    ∃ bs c2, configVersion20.marshalBinary = .ok bs ∧
      ConfigArg.unmarshalBinary bs = .ok c2 ∧
      c2.version = configVersion20.version % 16 ∧
      (c2.version = configVersion20.version ↔ configVersion20.version ≤ 15) :=
  C10_config_version_low_bits configVersion20 (by decide) (by decide) (by decide)

/-! ### C6: CheckPower and Flush -/

/-- C6: for every Issue-ATA request whose argument carries CmdStatus 0xE5
(CheckPower) or 0xE7 (Flush), ServeATA sends exactly one reply with
SectorCount 0xFF and CmdStatus ReadyStatus (0x40), returns no error of its
own, and performs no operation on the backing store (empty trace). -/
theorem C6_checkpower_flush (h : Header) (a : ATAArg) (rs : Store)
    (hc : h.command = 0) (ha : h.arg = some (.ata a))
    (hs : a.cmdStatus = 0xe5 ∨ a.cmdStatus = 0xe7) :
    serveATA h rs = (.sent powerArg, []) ∧
    powerArg.sectorCount = 0xff ∧ powerArg.cmdStatus = 0x40 := by
  refine ⟨?_, rfl, rfl⟩
  rcases hs with h5 | h7
  · simp [serveATA, hc, ha, h5]
  · simp [serveATA, hc, ha, h7]

/-- C6 witness: a concrete Flush request against the no-op store. -/
theorem C6_witness :
    serveATA { command := 0, arg := some (.ata { cmdStatus := 0xe7 }) } noopStore
      = (.sent powerArg, []) :=
  (C6_checkpower_flush { command := 0, arg := some (.ata { cmdStatus := 0xe7 }) }
    { cmdStatus := 0xe7 } noopStore rfl rfl (Or.inr rfl)).1

/-! ### C4: the ATA write path -/

/-- C4: for Issue-ATA requests with a write opcode (0x30 Write28 or 0x34
Write48), ServeATA sends the abort reply unless the write flag is set, the
payload length over 512 equals the sector count, and the store is writable;
otherwise it seeks to the computed offset (a seek error is returned to the
caller with no reply), writes the payload exactly once (a write error is
returned with no reply), aborts when bytes-written over 512 differs from
the sector count, and otherwise replies ReadyStatus with no data.  The
Write28 request with sector count 2 and a 1023-byte payload aborts. -/
theorem C4_serveATA_write_paths :
    (∀ (h : Header) (a : ATAArg) (rs : Store), h.command = 0 → h.arg = some (.ata a) →
      (a.cmdStatus = 0x30 ∨ a.cmdStatus = 0x34) →
      ¬ (a.flagWrite = true ∧ a.data.length / 512 = a.sectorCount ∧ rs.isWriter = true) →
      serveATA h rs = (.sent abortArg, [])) ∧
    (∀ (h : Header) (a : ATAArg) (rs : Store) (c : Nat),
      h.command = 0 → h.arg = some (.ata a) →
      (a.cmdStatus = 0x30 ∨ a.cmdStatus = 0x34) → a.flagWrite = true →
      a.data.length / 512 = a.sectorCount → rs.isWriter = true →
      rs.seekFn (ataOffset a) = .error c →
      serveATA h rs = (.failed (.storeErr c), [.seek (ataOffset a)])) ∧
    (∀ (h : Header) (a : ATAArg) (rs : Store) (s : Int) (c : Nat),
      h.command = 0 → h.arg = some (.ata a) →
      (a.cmdStatus = 0x30 ∨ a.cmdStatus = 0x34) → a.flagWrite = true →
      a.data.length / 512 = a.sectorCount → rs.isWriter = true →
      rs.seekFn (ataOffset a) = .ok s → rs.writeFn a.data = .error c →
      serveATA h rs = (.failed (.storeErr c), [.seek (ataOffset a), .writeOp a.data])) ∧
    (∀ (h : Header) (a : ATAArg) (rs : Store) (s : Int) (n : Nat),
      h.command = 0 → h.arg = some (.ata a) →
      (a.cmdStatus = 0x30 ∨ a.cmdStatus = 0x34) → a.flagWrite = true →
      a.data.length / 512 = a.sectorCount → rs.isWriter = true →
      rs.seekFn (ataOffset a) = .ok s → rs.writeFn a.data = .ok n →
      n / 512 ≠ a.sectorCount →
      serveATA h rs = (.sent abortArg, [.seek (ataOffset a), .writeOp a.data])) ∧
    (∀ (h : Header) (a : ATAArg) (rs : Store) (s : Int) (n : Nat),
      h.command = 0 → h.arg = some (.ata a) →
      (a.cmdStatus = 0x30 ∨ a.cmdStatus = 0x34) → a.flagWrite = true →
      a.data.length / 512 = a.sectorCount → rs.isWriter = true →
      rs.seekFn (ataOffset a) = .ok s → rs.writeFn a.data = .ok n →
      n / 512 = a.sectorCount →
      serveATA h rs = (.sent { cmdStatus := 0x40 }, [.seek (ataOffset a), .writeOp a.data])) ∧
    serveATA shortWriteRequest noopStore = (.sent abortArg, []) := by
  refine ⟨?_, ?_, ?_, ?_, ?_, by decide⟩
  · intro h a rs hc ha hop hpre
    by_cases hw : a.flagWrite = true
    · by_cases hlen : a.data.length / 512 = a.sectorCount
      · have hwr : rs.isWriter = false := by
          cases hiw : rs.isWriter
          · rfl
          · exact absurd ⟨hw, hlen, hiw⟩ hpre
        rcases hop with hoc | hoc <;> simp [serveATA, ataWrite, hc, ha, hoc, hw, hlen, hwr]
      · rcases hop with hoc | hoc <;> simp [serveATA, ataWrite, hc, ha, hoc, hw, hlen]
    · rcases hop with hoc | hoc <;> simp [serveATA, ataWrite, hc, ha, hoc, hw]
  · intro h a rs c hc ha hop hw hlen hiw hseek
    rcases hop with hoc | hoc <;>
      simp [serveATA, ataWrite, hc, ha, hoc, hw, hlen, hiw, hseek]
  · intro h a rs s c hc ha hop hw hlen hiw hseek hwrite
    rcases hop with hoc | hoc <;>
      simp [serveATA, ataWrite, hc, ha, hoc, hw, hlen, hiw, hseek, hwrite]
  · intro h a rs s n hc ha hop hw hlen hiw hseek hwrite hn
    rcases hop with hoc | hoc <;>
      simp [serveATA, ataWrite, hc, ha, hoc, hw, hlen, hiw, hseek, hwrite, hn]
  · intro h a rs s n hc ha hop hw hlen hiw hseek hwrite hn
    rcases hop with hoc | hoc <;>
      simp [serveATA, ataWrite, hc, ha, hoc, hw, hlen, hiw, hseek, hwrite, hn]

/-- C4 witness: a successful 2-sector Write28 against the no-op store. -/
theorem C4_witness :
    serveATA { command := 0, arg := some (.ata okWriteArg) } noopStore
      = (.sent { cmdStatus := 0x40 }, [.seek (ataOffset okWriteArg), .writeOp okWriteArg.data]) :=
  C4_serveATA_write_paths.2.2.2.2.1 { command := 0, arg := some (.ata okWriteArg) }
    okWriteArg noopStore 0 1024 rfl rfl (Or.inl rfl) rfl (by decide) rfl rfl (by decide) (by decide)

/-! ### C3: abort replies versus returned errors -/

/-- C3: every recoverable precondition failure of an Issue-ATA request
(unknown opcode, read with the write flag, write without the write flag,
payload and sector count disagreement, write without write capability,
identify with sector count other than 1, short read, short write) makes
ServeATA return no error and send exactly one reply with CmdStatus 0x01
(ErrStatus) and ErrFeature 0x04 (ATAErrAbort); whereas every error of the
backing store (Seek, Read, Write, Identify) is returned to the caller and
no reply is sent. -/
theorem C3_serveATA_abort_vs_errors :
    abortArg.cmdStatus = 0x01 ∧ abortArg.errFeature = 0x04 ∧
    (∀ (h : Header) (a : ATAArg) (rs : Store), h.command = 0 → h.arg = some (.ata a) →
      a.cmdStatus ≠ 0xe5 → a.cmdStatus ≠ 0xe7 → a.cmdStatus ≠ 0xec →
      a.cmdStatus ≠ 0x20 → a.cmdStatus ≠ 0x24 → a.cmdStatus ≠ 0x30 → a.cmdStatus ≠ 0x34 →
      serveATA h rs = (.sent abortArg, [])) ∧
    (∀ (h : Header) (a : ATAArg) (rs : Store), h.command = 0 → h.arg = some (.ata a) →
      (a.cmdStatus = 0x20 ∨ a.cmdStatus = 0x24) → a.flagWrite = true →
      serveATA h rs = (.sent abortArg, [])) ∧
    (∀ (h : Header) (a : ATAArg) (rs : Store), h.command = 0 → h.arg = some (.ata a) →
      (a.cmdStatus = 0x30 ∨ a.cmdStatus = 0x34) → a.flagWrite = false →
      serveATA h rs = (.sent abortArg, [])) ∧
    (∀ (h : Header) (a : ATAArg) (rs : Store), h.command = 0 → h.arg = some (.ata a) →
      (a.cmdStatus = 0x30 ∨ a.cmdStatus = 0x34) → a.flagWrite = true →
      a.data.length / 512 ≠ a.sectorCount →
      serveATA h rs = (.sent abortArg, [])) ∧
    (∀ (h : Header) (a : ATAArg) (rs : Store), h.command = 0 → h.arg = some (.ata a) →
      (a.cmdStatus = 0x30 ∨ a.cmdStatus = 0x34) → a.flagWrite = true →
      a.data.length / 512 = a.sectorCount → rs.isWriter = false →
      serveATA h rs = (.sent abortArg, [])) ∧
    (∀ (h : Header) (a : ATAArg) (rs : Store), h.command = 0 → h.arg = some (.ata a) →
      a.cmdStatus = 0xec → a.sectorCount ≠ 1 →
      serveATA h rs = (.sent abortArg, [])) ∧
    (∀ (h : Header) (a : ATAArg) (rs : Store) (s : Int) (n : Nat) (buf : List Nat),
      h.command = 0 → h.arg = some (.ata a) →
      (a.cmdStatus = 0x20 ∨ a.cmdStatus = 0x24) → a.flagWrite = false →
      rs.seekFn (ataOffset a) = .ok s →
      rs.readFn (a.sectorCount * 512) = .ok (n, buf) → n / 512 ≠ a.sectorCount →
      serveATA h rs = (.sent abortArg, [.seek (ataOffset a), .readOp (a.sectorCount * 512)])) ∧
    (∀ (h : Header) (a : ATAArg) (rs : Store) (s : Int) (n : Nat),
      h.command = 0 → h.arg = some (.ata a) →
      (a.cmdStatus = 0x30 ∨ a.cmdStatus = 0x34) → a.flagWrite = true →
      a.data.length / 512 = a.sectorCount → rs.isWriter = true →
      rs.seekFn (ataOffset a) = .ok s → rs.writeFn a.data = .ok n →
      n / 512 ≠ a.sectorCount →
      serveATA h rs = (.sent abortArg, [.seek (ataOffset a), .writeOp a.data])) ∧
    (∀ (h : Header) (a : ATAArg) (rs : Store) (c : Nat),
      h.command = 0 → h.arg = some (.ata a) →
      (a.cmdStatus = 0x20 ∨ a.cmdStatus = 0x24) → a.flagWrite = false →
      rs.seekFn (ataOffset a) = .error c →
      serveATA h rs = (.failed (.storeErr c), [.seek (ataOffset a)])) ∧
    (∀ (h : Header) (a : ATAArg) (rs : Store) (s : Int) (c : Nat),
      h.command = 0 → h.arg = some (.ata a) →
      (a.cmdStatus = 0x20 ∨ a.cmdStatus = 0x24) → a.flagWrite = false →
      rs.seekFn (ataOffset a) = .ok s → rs.readFn (a.sectorCount * 512) = .error c →
      serveATA h rs = (.failed (.storeErr c), [.seek (ataOffset a), .readOp (a.sectorCount * 512)])) ∧
    (∀ (h : Header) (a : ATAArg) (rs : Store) (c : Nat),
      h.command = 0 → h.arg = some (.ata a) →
      (a.cmdStatus = 0x30 ∨ a.cmdStatus = 0x34) → a.flagWrite = true →
      a.data.length / 512 = a.sectorCount → rs.isWriter = true →
      rs.seekFn (ataOffset a) = .error c →
      serveATA h rs = (.failed (.storeErr c), [.seek (ataOffset a)])) ∧
    (∀ (h : Header) (a : ATAArg) (rs : Store) (s : Int) (c : Nat),
      h.command = 0 → h.arg = some (.ata a) →
      (a.cmdStatus = 0x30 ∨ a.cmdStatus = 0x34) → a.flagWrite = true →
      a.data.length / 512 = a.sectorCount → rs.isWriter = true →
      rs.seekFn (ataOffset a) = .ok s → rs.writeFn a.data = .error c →
      serveATA h rs = (.failed (.storeErr c), [.seek (ataOffset a), .writeOp a.data])) ∧
    (∀ (h : Header) (a : ATAArg) (rs : Store) (c : Nat),
      h.command = 0 → h.arg = some (.ata a) →
      a.cmdStatus = 0xec → a.sectorCount = 1 → rs.identifyFn = some (.error c) →
      serveATA h rs = (.failed (.storeErr c), [.identifyOp])) := by
  refine ⟨rfl, rfl, ?_, ?_, ?_, ?_, ?_, ?_, ?_, ?_, ?_, ?_, ?_, ?_, ?_⟩
  · intro h a rs hc ha h1 h2 h3 h4 h5 h6 h7
    simp [serveATA, hc, ha, h1, h2, h3, h4, h5, h6, h7]
  · intro h a rs hc ha hop hw
    rcases hop with hoc | hoc <;> simp [serveATA, ataRead, hc, ha, hoc, hw]
  · intro h a rs hc ha hop hw
    rcases hop with hoc | hoc <;> simp [serveATA, ataWrite, hc, ha, hoc, hw]
  · intro h a rs hc ha hop hw hlen
    rcases hop with hoc | hoc <;> simp [serveATA, ataWrite, hc, ha, hoc, hw, hlen]
  · intro h a rs hc ha hop hw hlen hiw
    rcases hop with hoc | hoc <;> simp [serveATA, ataWrite, hc, ha, hoc, hw, hlen, hiw]
  · intro h a rs hc ha hec hsc
    simp [serveATA, ataIdentify, hc, ha, hec, hsc]
  · intro h a rs s n buf hc ha hop hw hseek hread hn
    rcases hop with hoc | hoc <;>
      simp [serveATA, ataRead, hc, ha, hoc, hw, hseek, hread, hn]
  · intro h a rs s n hc ha hop hw hlen hiw hseek hwrite hn
    rcases hop with hoc | hoc <;>
      simp [serveATA, ataWrite, hc, ha, hoc, hw, hlen, hiw, hseek, hwrite, hn]
  · intro h a rs c hc ha hop hw hseek
    rcases hop with hoc | hoc <;> simp [serveATA, ataRead, hc, ha, hoc, hw, hseek]
  · intro h a rs s c hc ha hop hw hseek hread
    rcases hop with hoc | hoc <;> simp [serveATA, ataRead, hc, ha, hoc, hw, hseek, hread]
  · intro h a rs c hc ha hop hw hlen hiw hseek
    rcases hop with hoc | hoc <;>
      simp [serveATA, ataWrite, hc, ha, hoc, hw, hlen, hiw, hseek]
  · intro h a rs s c hc ha hop hw hlen hiw hseek hwrite
    rcases hop with hoc | hoc <;>
      simp [serveATA, ataWrite, hc, ha, hoc, hw, hlen, hiw, hseek, hwrite]
  · intro h a rs c hc ha hec hsc hid
    simp [serveATA, ataIdentify, hc, ha, hec, hsc, hid]

/-- C3 witness: an unknown opcode (0xFF) yields the abort reply, and an
identify request against a store whose Identify call fails with code 7
returns that error with no reply. -/
theorem C3_witness :
    serveATA { command := 0, arg := some (.ata { cmdStatus := 0xff }) } noopStore
      = (.sent abortArg, []) :=
  C3_serveATA_abort_vs_errors.2.2.1 { command := 0, arg := some (.ata { cmdStatus := 0xff }) }
    { cmdStatus := 0xff } noopStore rfl rfl (by decide) (by decide) (by decide) (by decide)
    (by decide) (by decide) (by decide)

end AoE
